import Mathlib

/-!
Shallow embedding of `src/packages/waku/src/lib/handlers/dev-worker-impl.ts`
(the waku dev worker): the worker-side message protocol, request/response
correlation, the render and getSsrConfig handlers, the eagerly constructed
Vite server promise, and the startup sequence that parses the private env
variable before installing the message listener.

The render pipeline (`renderRsc`), the SSR-config pipeline (`getSsrConfig`
from rsc-renderer) and the module loader (`vite.ssrLoadModule`) are external
collaborators consumed as functions; they appear here as outcome oracles
(parameters), exactly as the handlers consume them.  Side effects of the
handlers (`parentPort.postMessage` with its transfer list, `deepFreeze`) are
recorded as an explicit event trace.
-/

namespace DevWorker

/-- A parsed JSON object (the private env map), as an association list. -/
abbrev Json := List (String × String)

/-- Handle standing for a `ReadableStream` value; identity only matters. -/
abbrev StreamHandle := Nat

/-- Handle standing for a loaded module (`ssrLoadModule` result). -/
abbrev Module := Nat

/-- The resolved Vite dev-server instance produced by `createViteServer`.
`instanceId` gives instances an identity so that "all callers receive the
same instance" is expressible; `root` is `vite.config.root`. -/
structure ViteInstance where
  instanceId : Nat
  root : String
deriving DecidableEq, Repr

/-- The parts of `ResolvedConfig` (lib/config.ts, outside src/) that
`dev-worker-impl.ts` reads: `config.srcDir` and `config.entriesJs`. -/
structure ResolvedConfig where
  srcDir : String
  entriesJs : String
deriving DecidableEq, Repr

/-- A thrown error value.  `statusCode` is `some n` when the error object
exposes a numeric `statusCode` attribute and `none` when it does not. -/
structure ErrVal where
  message : String
  statusCode : Option Int
deriving DecidableEq, Repr

/-- Modelled from the spec: `hasStatusCode` lives in
`lib/renderers/utils.ts`, which is not under src/; the spec describes it as
testing whether "the error exposes a status-code attribute". -/
def hasStatusCode (e : ErrVal) : Bool := e.statusCode.isSome

/-- The request context map: key/value entries plus the frozen flag that
`deepFreeze` sets.  `postMessage` structured-clones the map, so a message
carries a snapshot of the entries at post time. -/
structure Context where
  entries : List (String × String)
  frozen : Bool
deriving DecidableEq, Repr

/-- Modelled from the spec: `deepFreeze` lives in `lib/renderers/utils.ts`,
not under src/; the spec says the context map is "made immutable
(deep-frozen)" with "no further mutation permitted". -/
def deepFreeze (c : Context) : Context := { c with frozen := true }

/-- An attempt by pipeline code to write a key into the context map.  On a
frozen map the write is a detectable no-op (`Object.freeze` semantics); on
an unfrozen map it prepends the entry. -/
def contextSet (c : Context) (k v : String) : Context :=
  if c.frozen then c else { c with entries := (k, v) :: c.entries }

/-- Modelled from the spec: the SSR-config object returned by the resolver
(declared in rsc-renderer.ts, not under src/).  The spec describes it as a
config object whose fields are spread into the `ssrConfig` response and
whose `body` stream goes on the transfer list. -/
structure SsrConfigResult where
  input : String
  searchParamsString : Option String
  body : StreamHandle
deriving DecidableEq, Repr

/-- Modelled from the spec: the inbound render request message
(`{id, type:"render", config, input, searchParamsString, method, context,
stream?, contentType, hasModuleIdCallback}` per the spec; the type itself
is declared in dev-worker-api.ts, not under src/). -/
structure RenderReq where
  id : Nat
  config : ResolvedConfig
  input : String
  searchParamsString : String
  method : String
  context : Context
  stream : Option StreamHandle
  contentType : Option String
  hasModuleIdCallback : Bool
deriving DecidableEq, Repr

/-- Modelled from the spec: the inbound getSsrConfig request message
(`{id, type:"getSsrConfig", config, pathname, searchParamsString}`). -/
structure SsrReq where
  id : Nat
  config : ResolvedConfig
  pathname : String
  searchParamsString : String
deriving DecidableEq, Repr

/-- The inbound message union dispatched on by the `parentPort.on('message')`
listener.  `unknown` stands for any message whose `type` discriminant is
neither `render` nor `getSsrConfig`. -/
inductive MessageReq where
  | render (r : RenderReq)
  | getSsrConfig (s : SsrReq)
  | unknown (tag : String)
deriving DecidableEq, Repr

/-- The id a request message carries (`unknown` messages are never read). -/
def MessageReq.reqId : MessageReq → Option Nat
  | .render r => some r.id
  | .getSsrConfig s => some s.id
  | .unknown _ => none

/-- Modelled from the spec: the outbound message union (declared in
dev-worker-api.ts, not under src/).  Correlated responses carry the
originating id; the last three are the unsolicited broadcaster messages and
carry no id.  In `err`, `statusCode = none` models the absence of the
field. -/
inductive MessageRes where
  | start (id : Nat) (context : Context) (stream : StreamHandle)
  | err (id : Nat) (e : ErrVal) (statusCode : Option Int)
  | moduleId (id : Nat) (moduleId : String)
  | ssrConfig (id : Nat) (cfg : SsrConfigResult)
  | noSsrConfig (id : Nat)
  | reloadEvent (kind : String)
  | moduleImport (result : Json)
  | hotImport (source : String)
deriving DecidableEq, Repr

/-- The correlation id carried by a response, `none` for unsolicited ones. -/
def msgId : MessageRes → Option Nat
  | .start i _ _ => some i
  | .err i _ _ => some i
  | .moduleId i _ => some i
  | .ssrConfig i _ => some i
  | .noSsrConfig i => some i
  | .reloadEvent _ => none
  | .moduleImport _ => none
  | .hotImport _ => none

/-- Whether a response message carries the request's context map (only
`start` does, per the message shapes). -/
def msgCarriesContext : MessageRes → Bool
  | .start _ _ _ => true
  | _ => false

/-- One observable side effect of a handler: a `parentPort.postMessage`
call with its transfer list, or the `deepFreeze(rr.context)` call. -/
inductive Event where
  | post (m : MessageRes) (transfer : List StreamHandle)
  | freeze
deriving DecidableEq, Repr

/-- The correlation id carried by an event's message, if any. -/
def eventId : Event → Option Nat
  | .post m _ => msgId m
  | .freeze => none

/-- Whether an event posts a terminal render response (`start` or `err`). -/
def isTerminalRender : Event → Bool
  | .post (.start _ _ _) _ => true
  | .post (.err _ _ _) _ => true
  | _ => false

/-- Whether an event posts a `moduleId` response. -/
def isModuleIdEvent : Event → Bool
  | .post (.moduleId _ _) _ => true
  | _ => false

/-- Whether an event posts a terminal getSsrConfig success response
(`ssrConfig` or `noSsrConfig`). -/
def isSsrTerminal : Event → Bool
  | .post (.ssrConfig _ _) _ => true
  | .post (.noSsrConfig _) _ => true
  | _ => false

/-- The terminal render events of a trace. -/
def terminalsOf (t : List Event) : List Event := t.filter isTerminalRender

/-- The `statusCode` fields of the `err` responses posted in a trace. -/
def errStatusCodes (t : List Event) : List (Option Int) :=
  t.filterMap fun ev =>
    match ev with
    | Event.post (.err _ _ sc) _ => some sc
    | _ => none

/-- Outcome oracle for the body of `handleRender`'s try block: the awaited
`renderRsc` call (and the `await loadEntries` feeding it) either resolves
with a readable stream, or some step throws/rejects with an error value.
`moduleIds` lists the module ids the pipeline reports through
`moduleIdCallback`, in reporting order (possibly before a throw);
`ctxAfter` is the contents of `rr.context` after the pipeline ran. -/
inductive RenderOutcome where
  | ok (moduleIds : List String) (ctxAfter : List (String × String)) (stream : StreamHandle)
  | fail (moduleIds : List String) (ctxAfter : List (String × String)) (e : ErrVal)
deriving DecidableEq, Repr

/-- The module ids the pipeline reports under an outcome. -/
def RenderOutcome.moduleIds : RenderOutcome → List String
  | .ok mids _ _ => mids
  | .fail mids _ _ => mids

/-- Outcome oracle for `handleGetSsrConfig`'s try block: the awaited
`getSsrConfig` resolver returns a config object, returns nothing
(`undefined`), or some step throws/rejects. -/
inductive SsrOutcome where
  | ok (cfg : Option SsrConfigResult)
  | fail (e : ErrVal)
deriving DecidableEq, Repr

/-- `handleRender` from dev-worker-impl.ts.  Strips `id`, `type` and
`hasModuleIdCallback` from the message; when the flag is set, wires
`rr.moduleIdCallback` to post a correlated `moduleId` message per reported
id.  On success posts `{id, type:'start', context, stream}` with the stream
on the transfer list, then deep-freezes `rr.context`; on failure posts
`{id, type:'err', err}` adding `statusCode` only when `hasStatusCode(err)`.
Returns the event trace and the final state of the request's context
object. -/
def handleRender (outcome : RenderOutcome) (m : RenderReq) : List Event × Context :=
  let cb : List String → List Event := fun mids =>
    if m.hasModuleIdCallback then
      mids.map fun mid => Event.post (.moduleId m.id mid) []
    else []
  match outcome with
  | .ok mids ctxAfter stream =>
      let ctx : Context := ⟨ctxAfter, false⟩
      (cb mids ++ [Event.post (.start m.id ctx stream) [stream], Event.freeze],
        deepFreeze ctx)
  | .fail mids ctxAfter e =>
      let sc := if hasStatusCode e then e.statusCode else none
      (cb mids ++ [Event.post (.err m.id e sc) []], ⟨ctxAfter, false⟩)

/-- `handleGetSsrConfig` from dev-worker-impl.ts.  Awaits the resolver; a
truthy result is spread into `{id, type:'ssrConfig', ...ssrConfig}` posted
with `[ssrConfig.body]` as the transfer list, a falsy one yields
`{id, type:'noSsrConfig'}` with no transfer list; a throw yields the same
`err` message as `handleRender`. -/
def handleGetSsrConfig (outcome : SsrOutcome) (m : SsrReq) : List Event :=
  match outcome with
  | .ok (some cfg) => [Event.post (.ssrConfig m.id cfg) [cfg.body]]
  | .ok none => [Event.post (.noSsrConfig m.id) []]
  | .fail e =>
      let sc := if hasStatusCode e then e.statusCode else none
      [Event.post (.err m.id e sc) []]

/-- The `parentPort.on('message')` listener: dispatches on the `type`
discriminant, invoking `handleRender` for `render`, `handleGetSsrConfig`
for `getSsrConfig`, and nothing otherwise.  Returns the names of the
handlers invoked together with the posted event trace. -/
def dispatch (ro : RenderOutcome) (so : SsrOutcome) :
    MessageReq → List String × List Event
  | .render r => (["handleRender"], (handleRender ro r).1)
  | .getSsrConfig s => (["handleGetSsrConfig"], handleGetSsrConfig so s)
  | .unknown _ => ([], [])

/-- An error thrown during module evaluation (worker startup), before the
message listener is installed. -/
inductive StartupError where
  | envMissing
  | envInvalidJson
deriving DecidableEq, Repr

instance {ε α : Type} [DecidableEq ε] [DecidableEq α] : DecidableEq (Except ε α) :=
  fun a b =>
    match a, b with
    | .error e, .error f =>
        if h : e = f then .isTrue (by rw [h]) else .isFalse (by simp [h])
    | .error _, .ok _ => .isFalse (by simp)
    | .ok _, .error _ => .isFalse (by simp)
    | .ok x, .ok y =>
        if h : x = y then .isTrue (by rw [h]) else .isFalse (by simp [h])

/-- The worker's module-level state once module evaluation has finished:
the installed private env map, the number of `createViteServer` calls made
so far, the settled value of `vitePromise` (shared by every consumer), and
whether the message listener was installed. -/
structure WorkerState where
  privateEnv : Json
  constructionCalls : Nat
  vitePromise : Except ErrVal ViteInstance
  listenerInstalled : Bool
deriving DecidableEq, Repr

/-- Module evaluation of dev-worker-impl.ts, in source order: first
`JSON.parse(process.env.__WAKU_PRIVATE_ENV__!)` — `JSON.parse(undefined)`
throws, as does invalid JSON, aborting evaluation — then the single
top-level `createViteServer(mergedViteConfig).then(...)` call creating
`vitePromise` (counted by `constructionCalls`; `ctor` is its eventual
settlement — a rejection does not abort evaluation since the promise is
not awaited at top level), then `parentPort.on('message', ...)`.
`parse` abstracts `JSON.parse`, returning `none` on invalid JSON. -/
def workerStartup (parse : String → Option Json) (envData : Option String)
    (ctor : Except ErrVal ViteInstance) : Except StartupError WorkerState :=
  match envData with
  | none => .error .envMissing
  | some s =>
      match parse s with
      | none => .error .envInvalidJson
      | some v =>
          .ok { privateEnv := v, constructionCalls := 1, vitePromise := ctor,
                listenerInstalled := true }

/-- Modelled from the spec: `joinPath` lives in `lib/utils/path.ts`, not
under src/; the entry path combines "the loader's root directory, a
configured source directory, and a configured entry filename". -/
def joinPath (a b c : String) : String := a ++ "/" ++ b ++ "/" ++ c

/-- Modelled from the spec: `fileURLToFilePath` (lib/utils/path.ts, not
under src/) resolves "a file-URL-shaped reference to a local path"; here,
dropping the `file://` scheme. -/
def fileURLToFilePath (u : String) : String := u.drop 7

/-- `loadServerFile` from dev-worker-impl.ts: awaits `vitePromise` (a
rejection propagates) and calls `vite.ssrLoadModule` on the converted
path.  `ssrLoad` abstracts `ssrLoadModule` on a given instance.  The state
is returned to exhibit that the call never re-runs construction. -/
def loadServerFile (ssrLoad : ViteInstance → String → Except ErrVal Module)
    (st : WorkerState) (fileURL : String) :
    WorkerState × Except ErrVal Module :=
  match st.vitePromise with
  | .error e => (st, .error e)
  | .ok vite => (st, ssrLoad vite (fileURLToFilePath fileURL))

/-- `loadEntries` from dev-worker-impl.ts: awaits `vitePromise` and loads
`joinPath(vite.config.root, config.srcDir, config.entriesJs)`. -/
def loadEntries (ssrLoad : ViteInstance → String → Except ErrVal Module)
    (st : WorkerState) (config : ResolvedConfig) :
    WorkerState × Except ErrVal Module :=
  match st.vitePromise with
  | .error e => (st, .error e)
  | .ok vite => (st, ssrLoad vite (joinPath vite.root config.srcDir config.entriesJs))

/-- One call made by a consumer of the lazy loader handle. -/
inductive LoadCall where
  | serverFile (fileURL : String)
  | entries (config : ResolvedConfig)
deriving DecidableEq, Repr

/-- The path a call asks `ssrLoadModule` for, given the vite instance. -/
def LoadCall.path (vite : ViteInstance) : LoadCall → String
  | .serverFile u => fileURLToFilePath u
  | .entries cfg => joinPath vite.root cfg.srcDir cfg.entriesJs

/-- A sequence of consumer calls against the worker state, threading the
state through so that any reconstruction would be visible. -/
def runLoadCalls (ssrLoad : ViteInstance → String → Except ErrVal Module)
    (st : WorkerState) : List LoadCall → WorkerState × List (Except ErrVal Module)
  | [] => (st, [])
  | c :: cs =>
      let step := match c with
        | .serverFile u => loadServerFile ssrLoad st u
        | .entries cfg => loadEntries ssrLoad st cfg
      let rest := runLoadCalls ssrLoad step.1 cs
      (rest.1, step.2 :: rest.2)

/-- The whole worker: module evaluation followed by the listener handling a
sequence of inbound messages, each with its own pipeline outcomes.  If
module evaluation throws, no message is ever handled. -/
def workerRun (parse : String → Option Json) (envData : Option String)
    (ctor : Except ErrVal ViteInstance)
    (msgs : List (MessageReq × RenderOutcome × SsrOutcome)) :
    Except StartupError (Json × List (List String × List Event)) :=
  match workerStartup parse envData ctor with
  | .error e => .error e
  | .ok st => .ok (st.privateEnv, msgs.map fun t => dispatch t.2.1 t.2.2 t.1)

/-- `Interleave as bs cs`: `cs` is an order-preserving merge of `as` and
`bs` — the single-threaded event loop interleaves the two handlers'
suspension-separated segments in some such order. -/
inductive Interleave : List Event → List Event → List Event → Prop
  | nil : Interleave [] [] []
  | left {a : Event} {as bs cs : List Event} :
      Interleave as bs cs → Interleave (a :: as) bs (a :: cs)
  | right {b : Event} {as bs cs : List Event} :
      Interleave as bs cs → Interleave as (b :: bs) (b :: cs)

/-! ### Helper lemmas about handler traces -/

theorem filter_terminal_moduleId_posts (i : Nat) (mids : List String) :
    (mids.map fun mid => Event.post (.moduleId i mid) []).filter isTerminalRender
      = [] := by
  induction mids with
  | nil => rfl
  | cons m ms ih => simp [List.filter_cons, isTerminalRender, ih]

theorem terminalsOf_handleRender_ok (r : RenderReq) (mids : List String)
    (ctxA : List (String × String)) (s : StreamHandle) :
    terminalsOf (handleRender (.ok mids ctxA s) r).1
      = [Event.post (.start r.id ⟨ctxA, false⟩ s) [s]] := by
  cases hm : r.hasModuleIdCallback <;>
    simp [handleRender, terminalsOf, hm, List.filter_append,
      isTerminalRender, filter_terminal_moduleId_posts]

theorem terminalsOf_handleRender_fail (r : RenderReq) (mids : List String)
    (ctxA : List (String × String)) (e : ErrVal) :
    terminalsOf (handleRender (.fail mids ctxA e) r).1
      = [Event.post (.err r.id e (if hasStatusCode e then e.statusCode else none)) []] := by
  cases hm : r.hasModuleIdCallback <;>
    simp [handleRender, terminalsOf, hm, List.filter_append,
      isTerminalRender, filter_terminal_moduleId_posts]

/-! ### Claim theorems -/

/-- C1: for every render request, `handleRender` posts exactly one terminal
correlated response — a `start` message if `renderRsc` resolves, an `err`
message if any step throws or rejects — and that terminal message carries
the request's `id`; never both messages, never neither. -/
theorem c1_exactly_one_terminal (o : RenderOutcome) (r : RenderReq) :
    (terminalsOf (handleRender o r).1).length = 1 ∧
    (∀ ev ∈ terminalsOf (handleRender o r).1, eventId ev = some r.id) ∧
    (∀ mids ctxA s, o = .ok mids ctxA s →
      ∃ c tl, terminalsOf (handleRender o r).1 = [Event.post (.start r.id c s) tl]) ∧
    (∀ mids ctxA e, o = .fail mids ctxA e →
      ∃ sc, terminalsOf (handleRender o r).1 = [Event.post (.err r.id e sc) []]) := by
  cases o with
  | ok mids ctxA s =>
      rw [terminalsOf_handleRender_ok]
      refine ⟨rfl, ?_, ?_, ?_⟩
      · intro ev hev
        simp only [List.mem_singleton] at hev
        subst hev; rfl
      · rintro mids' ctxA' s' h
        injection h with h1 h2 h3
        subst h2; subst h3
        exact ⟨⟨ctxA, false⟩, [s], rfl⟩
      · rintro mids' ctxA' e' h
        exact absurd h (by simp)
  | fail mids ctxA e =>
      rw [terminalsOf_handleRender_fail]
      refine ⟨rfl, ?_, ?_, ?_⟩
      · intro ev hev
        simp only [List.mem_singleton] at hev
        subst hev; rfl
      · rintro mids' ctxA' s' h
        exact absurd h (by simp)
      · rintro mids' ctxA' e' h
        injection h with h1 h2 h3
        subst h3
        exact ⟨if hasStatusCode e then e.statusCode else none, rfl⟩

/-- Witness for C1 at a concrete failing render request. -/
theorem c1_exactly_one_terminal_witness :
    ∃ sc, terminalsOf (handleRender
        (.fail ["mod-a"] [("k", "v")] ⟨"boom", some 404⟩)
        ⟨7, ⟨"src", "entries.js"⟩, "/", "", "GET", ⟨[], false⟩, none, none, true⟩).1
      = [Event.post (.err 7 ⟨"boom", some 404⟩ sc) []] :=
  (c1_exactly_one_terminal
      (.fail ["mod-a"] [("k", "v")] ⟨"boom", some 404⟩)
      ⟨7, ⟨"src", "entries.js"⟩, "/", "", "GET", ⟨[], false⟩, none, none, true⟩).2.2.2
    ["mod-a"] [("k", "v")] ⟨"boom", some 404⟩ rfl

/-- C4: for every getSsrConfig request whose resolver returns, the handler
posts exactly one success response: `ssrConfig` carrying all resolver
fields with the body stream on the transfer list when the resolver yields a
config, `noSsrConfig` with no payload when it yields nothing. -/
theorem c4_ssr_config_dichotomy (s : SsrReq) (o : Option SsrConfigResult) :
    ((handleGetSsrConfig (.ok o) s).filter isSsrTerminal).length = 1 ∧
    (∀ cfg, o = some cfg →
        handleGetSsrConfig (.ok o) s = [Event.post (.ssrConfig s.id cfg) [cfg.body]]) ∧
    (o = none → handleGetSsrConfig (.ok o) s = [Event.post (.noSsrConfig s.id) []]) := by
  cases o with
  | none => exact ⟨rfl, by rintro cfg ⟨⟩, fun _ => rfl⟩
  | some cfg =>
      refine ⟨rfl, ?_, by rintro ⟨⟩⟩
      rintro cfg' h
      injection h with h1
      subst h1; rfl

/-- Witness for C4 at a concrete request and resolver result. -/
theorem c4_ssr_config_dichotomy_witness :
    handleGetSsrConfig (.ok (some ⟨"/about", some "q=1", 3⟩))
        ⟨2, ⟨"src", "entries.js"⟩, "/about", "q=1"⟩
      = [Event.post (.ssrConfig 2 ⟨"/about", some "q=1", 3⟩) [3]] :=
  (c4_ssr_config_dichotomy ⟨2, ⟨"src", "entries.js"⟩, "/about", "q=1"⟩
      (some ⟨"/about", some "q=1", 3⟩)).2.1 ⟨"/about", some "q=1", 3⟩ rfl

/-- C5: when `hasModuleIdCallback` is set, the module ids the pipeline
reports are posted as correlated `moduleId` messages in reporting order,
as a prefix of the trace that precedes everything else; the rest of the
trace posts no `moduleId` message and contains the single terminal
response.  Hence every `moduleId` message is posted strictly before the
terminal `start` or `err` message. -/
theorem c5_module_ids_in_order_before_terminal (o : RenderOutcome) (r : RenderReq)
    (h : r.hasModuleIdCallback = true) :
    ∃ rest,
      (handleRender o r).1
        = o.moduleIds.map (fun mid => Event.post (.moduleId r.id mid) []) ++ rest ∧
      (∀ ev ∈ rest, isModuleIdEvent ev = false) ∧
      (terminalsOf rest).length = 1 := by
  cases o with
  | ok mids ctxA s =>
      refine ⟨[Event.post (.start r.id ⟨ctxA, false⟩ s) [s], Event.freeze], ?_, ?_, rfl⟩
      · simp [handleRender, h, RenderOutcome.moduleIds]
      · intro ev hev
        simp only [List.mem_cons, List.not_mem_nil, or_false] at hev
        rcases hev with rfl | rfl <;> rfl
  | fail mids ctxA e =>
      refine ⟨[Event.post (.err r.id e (if hasStatusCode e then e.statusCode else none)) []],
        ?_, ?_, rfl⟩
      · simp [handleRender, h, RenderOutcome.moduleIds]
      · intro ev hev
        simp only [List.mem_cons, List.not_mem_nil, or_false] at hev
        subst hev; rfl

/-- Witness for C5 at a concrete render request reporting two module ids. -/
theorem c5_module_ids_in_order_before_terminal_witness :
    ∃ rest,
      (handleRender (.ok ["m1", "m2"] [] 9)
          ⟨5, ⟨"src", "entries.js"⟩, "/", "", "GET", ⟨[], false⟩, none, none, true⟩).1
        = (RenderOutcome.ok ["m1", "m2"] [] 9).moduleIds.map
            (fun mid => Event.post (.moduleId 5 mid) []) ++ rest ∧
      (∀ ev ∈ rest, isModuleIdEvent ev = false) ∧
      (terminalsOf rest).length = 1 :=
  c5_module_ids_in_order_before_terminal (.ok ["m1", "m2"] [] 9)
    ⟨5, ⟨"src", "entries.js"⟩, "/", "", "GET", ⟨[], false⟩, none, none, true⟩ rfl

theorem statusCode_if (e : ErrVal) :
    (if hasStatusCode e then e.statusCode else none) = e.statusCode := by
  cases h : e.statusCode <;> simp [hasStatusCode, h]

theorem errStatusCodes_moduleId_posts (i : Nat) (mids : List String) :
    errStatusCodes (mids.map fun mid => Event.post (.moduleId i mid) []) = [] := by
  induction mids with
  | nil => rfl
  | cons m ms ih => exact ih

theorem errStatusCodes_append (t u : List Event) :
    errStatusCodes (t ++ u) = errStatusCodes t ++ errStatusCodes u := by
  simp [errStatusCodes, List.filterMap_append]

/-- C6: on the error path of either handler, the posted `err` response's
`statusCode` field equals the caught error's `statusCode` attribute as an
optional value — equal to it when the error exposes one (`hasStatusCode`),
absent (`none`) when it does not. -/
theorem c6_status_code_propagation (r : RenderReq) (s : SsrReq)
    (mids : List String) (ctxA : List (String × String)) (e : ErrVal) :
    errStatusCodes (handleRender (.fail mids ctxA e) r).1 = [e.statusCode] ∧
    errStatusCodes (handleGetSsrConfig (.fail e) s) = [e.statusCode] := by
  constructor
  · cases hm : r.hasModuleIdCallback <;>
      simp only [handleRender, hm, Bool.false_eq_true, if_true, if_false,
        List.nil_append, errStatusCodes_append, errStatusCodes_moduleId_posts] <;>
      simp [errStatusCodes, statusCode_if]
  · simp [handleGetSsrConfig, errStatusCodes, statusCode_if]

/-- Witness for C6 at concrete errors with and without a status code. -/
theorem c6_status_code_propagation_witness :
    errStatusCodes (handleRender (.fail [] [] ⟨"not found", some 404⟩)
        ⟨11, ⟨"src", "entries.js"⟩, "/", "", "GET", ⟨[], false⟩, none, none, false⟩).1
      = [some 404] ∧
    errStatusCodes (handleGetSsrConfig (.fail ⟨"plain", none⟩)
        ⟨12, ⟨"src", "entries.js"⟩, "/p", ""⟩)
      = [none] :=
  ⟨(c6_status_code_propagation
      ⟨11, ⟨"src", "entries.js"⟩, "/", "", "GET", ⟨[], false⟩, none, none, false⟩
      ⟨12, ⟨"src", "entries.js"⟩, "/p", ""⟩ [] [] ⟨"not found", some 404⟩).1,
   (c6_status_code_propagation
      ⟨11, ⟨"src", "entries.js"⟩, "/", "", "GET", ⟨[], false⟩, none, none, false⟩
      ⟨12, ⟨"src", "entries.js"⟩, "/p", ""⟩ [] [] ⟨"plain", none⟩).2⟩

/-- C7: on a successful render the trace is some prefix of non-terminal
events, then the `start` post carrying the context snapshot with the
stream on the transfer list, then — immediately afterward — the
`deepFreeze` of the request's context; the final context is frozen, and
any subsequent mutation attempt is a no-op. -/
theorem c7_start_then_freeze (r : RenderReq) (mids : List String)
    (ctxA : List (String × String)) (s : StreamHandle) :
    ∃ pre,
      (handleRender (.ok mids ctxA s) r).1
        = pre ++ [Event.post (.start r.id ⟨ctxA, false⟩ s) [s], Event.freeze] ∧
      (∀ ev ∈ pre, isTerminalRender ev = false) ∧
      (handleRender (.ok mids ctxA s) r).2.frozen = true ∧
      (∀ k v, contextSet (handleRender (.ok mids ctxA s) r).2 k v
        = (handleRender (.ok mids ctxA s) r).2) := by
  refine ⟨(if r.hasModuleIdCallback then
      mids.map fun mid => Event.post (.moduleId r.id mid) [] else []), ?_, ?_, rfl, ?_⟩
  · cases hm : r.hasModuleIdCallback <;> simp [handleRender, hm]
  · intro ev hev
    cases hm : r.hasModuleIdCallback
    · simp [hm] at hev
    · simp only [hm, if_true, List.mem_map] at hev
      obtain ⟨mid, _, rfl⟩ := hev
      rfl
  · intro k v
    simp [handleRender, deepFreeze, contextSet]

/-- Witness for C7 at a concrete successful render. -/
theorem c7_start_then_freeze_witness :
    ∃ pre,
      (handleRender (.ok ["m1"] [("a", "1")] 4)
          ⟨9, ⟨"src", "entries.js"⟩, "/", "", "GET", ⟨[], false⟩, none, none, true⟩).1
        = pre ++ [Event.post (.start 9 ⟨[("a", "1")], false⟩ 4) [4], Event.freeze] ∧
      (∀ ev ∈ pre, isTerminalRender ev = false) ∧
      (handleRender (.ok ["m1"] [("a", "1")] 4)
          ⟨9, ⟨"src", "entries.js"⟩, "/", "", "GET", ⟨[], false⟩, none, none, true⟩).2.frozen
        = true ∧
      (∀ k v, contextSet (handleRender (.ok ["m1"] [("a", "1")] 4)
          ⟨9, ⟨"src", "entries.js"⟩, "/", "", "GET", ⟨[], false⟩, none, none, true⟩).2 k v
        = (handleRender (.ok ["m1"] [("a", "1")] 4)
          ⟨9, ⟨"src", "entries.js"⟩, "/", "", "GET", ⟨[], false⟩, none, none, true⟩).2) :=
  c7_start_then_freeze
    ⟨9, ⟨"src", "entries.js"⟩, "/", "", "GET", ⟨[], false⟩, none, none, true⟩
    ["m1"] [("a", "1")] 4

/-- C9: on the error path of `handleRender` the context map is never
frozen — no `freeze` event occurs, the final context is unfrozen and still
accepts mutation — and no posted message carries the context map (the
`err` response does not include it). -/
theorem c9_no_freeze_on_error (r : RenderReq) (mids : List String)
    (ctxA : List (String × String)) (e : ErrVal) :
    Event.freeze ∉ (handleRender (.fail mids ctxA e) r).1 ∧
    (handleRender (.fail mids ctxA e) r).2.frozen = false ∧
    (∀ msg tl, Event.post msg tl ∈ (handleRender (.fail mids ctxA e) r).1 →
        msgCarriesContext msg = false) ∧
    (∀ k v, (contextSet (handleRender (.fail mids ctxA e) r).2 k v).entries
        = (k, v) :: (handleRender (.fail mids ctxA e) r).2.entries) := by
  refine ⟨?_, rfl, ?_, ?_⟩
  · intro hmem
    cases hm : r.hasModuleIdCallback <;> simp [handleRender, hm] at hmem
  · intro msg tl hmem
    cases hm : r.hasModuleIdCallback <;> simp [handleRender, hm] at hmem
    · obtain ⟨rfl, -⟩ := hmem
      rfl
    · rcases hmem with ⟨mid, -, rfl, -⟩ | ⟨rfl, -⟩ <;> rfl
  · intro k v
    simp [handleRender, contextSet]

/-- Witness for C9 at a concrete failing render request. -/
theorem c9_no_freeze_on_error_witness :
    Event.freeze ∉ (handleRender (.fail ["m"] [("a", "1")] ⟨"oops", none⟩)
        ⟨3, ⟨"src", "entries.js"⟩, "/", "", "POST", ⟨[], false⟩, none, none, true⟩).1 ∧
    (handleRender (.fail ["m"] [("a", "1")] ⟨"oops", none⟩)
        ⟨3, ⟨"src", "entries.js"⟩, "/", "", "POST", ⟨[], false⟩, none, none, true⟩).2.frozen
      = false :=
  ⟨(c9_no_freeze_on_error
      ⟨3, ⟨"src", "entries.js"⟩, "/", "", "POST", ⟨[], false⟩, none, none, true⟩
      ["m"] [("a", "1")] ⟨"oops", none⟩).1,
   (c9_no_freeze_on_error
      ⟨3, ⟨"src", "entries.js"⟩, "/", "", "POST", ⟨[], false⟩, none, none, true⟩
      ["m"] [("a", "1")] ⟨"oops", none⟩).2.1⟩

/-- C8: an inbound message whose `type` discriminant is neither `render`
nor `getSsrConfig` invokes no handler and posts nothing; the listener
returns normally. -/
theorem c8_unknown_ignored (ro : RenderOutcome) (so : SsrOutcome) (tag : String) :
    dispatch ro so (MessageReq.unknown tag) = ([], []) := rfl

theorem eventId_handleRender (o : RenderOutcome) (r : RenderReq) (ev : Event)
    (hev : ev ∈ (handleRender o r).1) :
    eventId ev = some r.id ∨ ev = Event.freeze := by
  cases o with
  | ok mids ctxA s =>
      cases hm : r.hasModuleIdCallback <;> simp [handleRender, hm] at hev
      · rcases hev with rfl | rfl
        · exact .inl rfl
        · exact .inr rfl
      · rcases hev with ⟨mid, -, rfl⟩ | rfl | rfl
        · exact .inl rfl
        · exact .inl rfl
        · exact .inr rfl
  | fail mids ctxA e =>
      cases hm : r.hasModuleIdCallback <;> simp [handleRender, hm] at hev
      · subst hev; exact .inl rfl
      · rcases hev with ⟨mid, -, rfl⟩ | rfl
        · exact .inl rfl
        · exact .inl rfl

theorem eventId_handleGetSsrConfig (o : SsrOutcome) (s : SsrReq) (ev : Event)
    (hev : ev ∈ handleGetSsrConfig o s) :
    eventId ev = some s.id := by
  cases o with
  | ok cfg =>
      cases cfg <;> simp [handleGetSsrConfig] at hev <;> subst hev <;> rfl
  | fail e =>
      simp [handleGetSsrConfig] at hev
      subst hev; rfl

theorem eventId_dispatch (ro : RenderOutcome) (so : SsrOutcome) (q : MessageReq)
    (ev : Event) (hev : ev ∈ (dispatch ro so q).2) :
    eventId ev = q.reqId ∨ ev = Event.freeze := by
  cases q with
  | render r =>
      exact eventId_handleRender ro r ev hev
  | getSsrConfig s =>
      exact .inl (eventId_handleGetSsrConfig so s ev hev)
  | unknown tag =>
      simp [dispatch] at hev

theorem Interleave.mem_or {as bs cs : List Event} (h : Interleave as bs cs) :
    ∀ ev ∈ cs, ev ∈ as ∨ ev ∈ bs := by
  induction h with
  | nil => intro ev hev; simp at hev
  | left h ih =>
      intro ev hev
      rcases List.mem_cons.mp hev with rfl | hev
      · exact .inl (List.mem_cons_self _ _)
      · rcases ih ev hev with h1 | h1
        · exact .inl (List.mem_cons_of_mem _ h1)
        · exact .inr h1
  | right h ih =>
      intro ev hev
      rcases List.mem_cons.mp hev with rfl | hev
      · exact .inr (List.mem_cons_self _ _)
      · rcases ih ev hev with h1 | h1
        · exact .inl h1
        · exact .inr (List.mem_cons_of_mem _ h1)

theorem interleave_append (as bs : List Event) : Interleave as bs (as ++ bs) := by
  induction as with
  | nil =>
      induction bs with
      | nil => exact .nil
      | cons b bs ih => exact .right ih
  | cons a as ih => exact .left ih

/-- C2: for any two concurrently handled requests with distinct ids (any
mix of render and getSsrConfig) and any interleaving of their event traces
on the single channel, every correlated response a handler posts carries
its own request's id, and every message in the interleaved trace carrying
one request's id was posted while handling that request — no response is
attributed to the other request's id, for all handler outcomes including
the `ssrConfig` response built from the resolver's result fields. -/
theorem c2_no_cross_talk (q1 q2 : MessageReq) (i1 i2 : Nat)
    (ro1 ro2 : RenderOutcome) (so1 so2 : SsrOutcome) (ts : List Event)
    (h1 : q1.reqId = some i1) (h2 : q2.reqId = some i2) (hne : i1 ≠ i2)
    (hI : Interleave (dispatch ro1 so1 q1).2 (dispatch ro2 so2 q2).2 ts) :
    (∀ ev ∈ (dispatch ro1 so1 q1).2, eventId ev = some i1 ∨ ev = Event.freeze) ∧
    (∀ ev ∈ (dispatch ro2 so2 q2).2, eventId ev = some i2 ∨ ev = Event.freeze) ∧
    (∀ ev ∈ ts, eventId ev = some i1 → ev ∈ (dispatch ro1 so1 q1).2) ∧
    (∀ ev ∈ ts, eventId ev = some i2 → ev ∈ (dispatch ro2 so2 q2).2) := by
  have A1 : ∀ ev ∈ (dispatch ro1 so1 q1).2, eventId ev = some i1 ∨ ev = Event.freeze := by
    intro ev hev
    rcases eventId_dispatch ro1 so1 q1 ev hev with h | h
    · exact .inl (h1 ▸ h)
    · exact .inr h
  have A2 : ∀ ev ∈ (dispatch ro2 so2 q2).2, eventId ev = some i2 ∨ ev = Event.freeze := by
    intro ev hev
    rcases eventId_dispatch ro2 so2 q2 ev hev with h | h
    · exact .inl (h2 ▸ h)
    · exact .inr h
  refine ⟨A1, A2, ?_, ?_⟩
  · intro ev hev hid
    rcases hI.mem_or ev hev with h | h
    · exact h
    · rcases A2 ev h with h' | h'
      · rw [hid] at h'
        exact absurd (Option.some.inj h') hne
      · rw [h'] at hid
        exact absurd hid (by simp [eventId])
  · intro ev hev hid
    rcases hI.mem_or ev hev with h | h
    · rcases A1 ev h with h' | h'
      · rw [hid] at h'
        exact absurd (Option.some.inj h').symm hne
      · rw [h'] at hid
        exact absurd hid (by simp [eventId])
    · exact h

/-- Witness for C2: a concrete render request (id 1) and getSsrConfig
request (id 2) with their traces laid end to end. -/
theorem c2_no_cross_talk_witness :
    (∀ ev ∈ (dispatch (.ok ["m1"] [("a", "1")] 4) (.ok none)
        (MessageReq.render
          ⟨1, ⟨"src", "entries.js"⟩, "/", "", "GET", ⟨[], false⟩, none, none, true⟩)).2,
      eventId ev = some 1 ∨ ev = Event.freeze) ∧
    (∀ ev ∈ (dispatch (.ok ["m1"] [("a", "1")] 4) (.ok none)
        (MessageReq.getSsrConfig ⟨2, ⟨"src", "entries.js"⟩, "/about", "q=1"⟩)).2,
      eventId ev = some 2 ∨ ev = Event.freeze) ∧
    (∀ ev ∈ (dispatch (.ok ["m1"] [("a", "1")] 4) (.ok none)
          (MessageReq.render
            ⟨1, ⟨"src", "entries.js"⟩, "/", "", "GET", ⟨[], false⟩, none, none, true⟩)).2
        ++ (dispatch (.ok ["m1"] [("a", "1")] 4) (.ok none)
          (MessageReq.getSsrConfig ⟨2, ⟨"src", "entries.js"⟩, "/about", "q=1"⟩)).2,
      eventId ev = some 1 →
        ev ∈ (dispatch (.ok ["m1"] [("a", "1")] 4) (.ok none)
          (MessageReq.render
            ⟨1, ⟨"src", "entries.js"⟩, "/", "", "GET", ⟨[], false⟩, none, none, true⟩)).2) ∧
    (∀ ev ∈ (dispatch (.ok ["m1"] [("a", "1")] 4) (.ok none)
          (MessageReq.render
            ⟨1, ⟨"src", "entries.js"⟩, "/", "", "GET", ⟨[], false⟩, none, none, true⟩)).2
        ++ (dispatch (.ok ["m1"] [("a", "1")] 4) (.ok none)
          (MessageReq.getSsrConfig ⟨2, ⟨"src", "entries.js"⟩, "/about", "q=1"⟩)).2,
      eventId ev = some 2 →
        ev ∈ (dispatch (.ok ["m1"] [("a", "1")] 4) (.ok none)
          (MessageReq.getSsrConfig ⟨2, ⟨"src", "entries.js"⟩, "/about", "q=1"⟩)).2) :=
  c2_no_cross_talk
    (MessageReq.render
      ⟨1, ⟨"src", "entries.js"⟩, "/", "", "GET", ⟨[], false⟩, none, none, true⟩)
    (MessageReq.getSsrConfig ⟨2, ⟨"src", "entries.js"⟩, "/about", "q=1"⟩)
    1 2 (.ok ["m1"] [("a", "1")] 4) (.ok ["m1"] [("a", "1")] 4) (.ok none) (.ok none)
    _ rfl rfl (by decide) (interleave_append _ _)

/-- The result a loader-handle consumer observes: determined entirely by
the single shared `vitePromise` value held in the worker state. -/
def loadResult (ssrLoad : ViteInstance → String → Except ErrVal Module)
    (st : WorkerState) (c : LoadCall) : Except ErrVal Module :=
  match st.vitePromise with
  | .error e => .error e
  | .ok vite => ssrLoad vite (c.path vite)

theorem loadServerFile_state (ssrLoad : ViteInstance → String → Except ErrVal Module)
    (st : WorkerState) (u : String) : (loadServerFile ssrLoad st u).1 = st := by
  cases h : st.vitePromise <;> simp [loadServerFile, h]

theorem loadEntries_state (ssrLoad : ViteInstance → String → Except ErrVal Module)
    (st : WorkerState) (cfg : ResolvedConfig) :
    (loadEntries ssrLoad st cfg).1 = st := by
  cases h : st.vitePromise <;> simp [loadEntries, h]

theorem loadServerFile_result (ssrLoad : ViteInstance → String → Except ErrVal Module)
    (st : WorkerState) (u : String) :
    (loadServerFile ssrLoad st u).2 = loadResult ssrLoad st (.serverFile u) := by
  cases h : st.vitePromise <;> simp [loadServerFile, loadResult, h, LoadCall.path]

theorem loadEntries_result (ssrLoad : ViteInstance → String → Except ErrVal Module)
    (st : WorkerState) (cfg : ResolvedConfig) :
    (loadEntries ssrLoad st cfg).2 = loadResult ssrLoad st (.entries cfg) := by
  cases h : st.vitePromise <;> simp [loadEntries, loadResult, h, LoadCall.path]

theorem runLoadCalls_state (ssrLoad : ViteInstance → String → Except ErrVal Module)
    (st : WorkerState) (calls : List LoadCall) :
    (runLoadCalls ssrLoad st calls).1 = st := by
  induction calls with
  | nil => rfl
  | cons c cs ih =>
      cases c with
      | serverFile u => simp [runLoadCalls, loadServerFile_state, ih]
      | entries cfg => simp [runLoadCalls, loadEntries_state, ih]

theorem runLoadCalls_results (ssrLoad : ViteInstance → String → Except ErrVal Module)
    (st : WorkerState) (calls : List LoadCall) :
    (runLoadCalls ssrLoad st calls).2 = calls.map (loadResult ssrLoad st) := by
  induction calls with
  | nil => rfl
  | cons c cs ih =>
      cases c with
      | serverFile u =>
          simp [runLoadCalls, loadServerFile_state, loadServerFile_result, ih]
      | entries cfg =>
          simp [runLoadCalls, loadEntries_state, loadEntries_result, ih]

theorem workerStartup_ok (parse : String → Option Json) (envData : Option String)
    (ctor : Except ErrVal ViteInstance) (st : WorkerState)
    (h : workerStartup parse envData ctor = .ok st) :
    st.constructionCalls = 1 ∧ st.vitePromise = ctor ∧
      st.listenerInstalled = true ∧
      ∃ s, envData = some s ∧ parse s = some st.privateEnv := by
  cases envData with
  | none => simp [workerStartup] at h
  | some s0 =>
      cases hp : parse s0 with
      | none => simp [workerStartup, hp] at h
      | some v =>
          simp only [workerStartup, hp, Except.ok.injEq] at h
          subst h
          exact ⟨rfl, rfl, rfl, s0, rfl, hp⟩

/-- C3 counterexample: construction of the Vite server is not triggered by
the first caller's await.  After module evaluation, with zero calls to
`loadServerFile` or `loadEntries` ever made, the `createViteServer` call
count is already 1 — under the claim it would still be 0. -/
theorem c3_counterexample :
    (workerStartup (fun _ => some [("K", "V")]) (some "envjson")
        (.ok ⟨7, "/repo"⟩)).toOption.map WorkerState.constructionCalls = some 1 ∧
    ¬ ((workerStartup (fun _ => some [("K", "V")]) (some "envjson")
        (.ok ⟨7, "/repo"⟩)).toOption.map WorkerState.constructionCalls = some 0) :=
  ⟨rfl, by decide⟩

/-- C3 (amended): the Vite server behind `vitePromise` is constructed
exactly once per worker lifetime, eagerly at module evaluation (before any
caller awaits); every caller of `loadServerFile` and `loadEntries`,
however many, observes the same settled `vitePromise` with no
reconstruction — on success each caller loads through the same instance,
and a construction failure propagates to every caller. -/
theorem c3_construction_once (parse : String → Option Json) (envData : Option String)
    (ctor : Except ErrVal ViteInstance) (st : WorkerState)
    (ssrLoad : ViteInstance → String → Except ErrVal Module) (calls : List LoadCall)
    (h : workerStartup parse envData ctor = .ok st) :
    st.constructionCalls = 1 ∧
    (runLoadCalls ssrLoad st calls).1 = st ∧
    (runLoadCalls ssrLoad st calls).2 = calls.map (loadResult ssrLoad st) ∧
    (∀ e, ctor = .error e →
        ∀ res ∈ (runLoadCalls ssrLoad st calls).2, res = .error e) ∧
    (∀ vite, ctor = .ok vite →
        (runLoadCalls ssrLoad st calls).2
          = calls.map fun c => ssrLoad vite (c.path vite)) := by
  obtain ⟨hcount, hvp, -, -⟩ := workerStartup_ok parse envData ctor st h
  refine ⟨hcount, runLoadCalls_state ssrLoad st calls,
    runLoadCalls_results ssrLoad st calls, ?_, ?_⟩
  · rintro e rfl res hres
    rw [runLoadCalls_results] at hres
    rcases List.mem_map.mp hres with ⟨c, -, rfl⟩
    simp [loadResult, hvp]
  · rintro vite rfl
    rw [runLoadCalls_results]
    exact List.map_congr_left fun c _ => by simp [loadResult, hvp]

/-- Witness for C3 (amended) at a concrete startup and two loader calls. -/
theorem c3_construction_once_witness :
    (⟨[("K", "V")], 1, .ok ⟨7, "/repo"⟩, true⟩ : WorkerState).constructionCalls = 1 ∧
    (runLoadCalls (fun vite p => .ok (vite.instanceId + p.length))
        ⟨[("K", "V")], 1, .ok ⟨7, "/repo"⟩, true⟩
        [.serverFile "file:///a.ts", .entries ⟨"src", "entries.js"⟩]).1
      = ⟨[("K", "V")], 1, .ok ⟨7, "/repo"⟩, true⟩ :=
  ⟨(c3_construction_once (fun _ => some [("K", "V")]) (some "envjson")
      (.ok ⟨7, "/repo"⟩) ⟨[("K", "V")], 1, .ok ⟨7, "/repo"⟩, true⟩
      (fun vite p => .ok (vite.instanceId + p.length))
      [.serverFile "file:///a.ts", .entries ⟨"src", "entries.js"⟩] rfl).1,
   (c3_construction_once (fun _ => some [("K", "V")]) (some "envjson")
      (.ok ⟨7, "/repo"⟩) ⟨[("K", "V")], 1, .ok ⟨7, "/repo"⟩, true⟩
      (fun vite p => .ok (vite.instanceId + p.length))
      [.serverFile "file:///a.ts", .entries ⟨"src", "entries.js"⟩] rfl).2.1⟩

/-- C10: module evaluation parses `__WAKU_PRIVATE_ENV__` before the
message listener is installed: a missing variable or invalid JSON makes
evaluation throw, so the worker handles no request at all; when startup
succeeds, the parsed env map is installed and every handled request runs
with it in place. -/
theorem c10_env_parsed_before_listener (parse : String → Option Json)
    (envData : Option String) (ctor : Except ErrVal ViteInstance)
    (msgs : List (MessageReq × RenderOutcome × SsrOutcome)) :
    (envData = none → workerRun parse envData ctor msgs = .error .envMissing) ∧
    (∀ s, envData = some s → parse s = none →
        workerRun parse envData ctor msgs = .error .envInvalidJson) ∧
    (∀ st, workerStartup parse envData ctor = .ok st →
        parse <$> envData = some (some st.privateEnv) ∧
        st.listenerInstalled = true ∧
        workerRun parse envData ctor msgs
          = .ok (st.privateEnv, msgs.map fun t => dispatch t.2.1 t.2.2 t.1)) := by
  refine ⟨?_, ?_, ?_⟩
  · rintro rfl
    rfl
  · rintro s rfl hp
    simp [workerRun, workerStartup, hp]
  · intro st hst
    obtain ⟨-, -, hl, s, hs, hp⟩ := workerStartup_ok parse envData ctor st hst
    subst hs
    exact ⟨by simp [hp], hl, by simp [workerRun, hst]⟩

/-- Witness for C10: a missing env variable aborts startup before any
message is handled. -/
theorem c10_env_parsed_before_listener_witness :
    workerRun (fun _ => some [("K", "V")]) none (.ok ⟨7, "/repo"⟩) []
      = .error .envMissing :=
  (c10_env_parsed_before_listener (fun _ => some [("K", "V")]) none
      (.ok ⟨7, "/repo"⟩) []).1 rfl

end DevWorker
